import Mathlib

/-!
Verification of the Smart IoT clothesline controller
(`utils/nodemcu_manager.py`, `models/weather_predictor.py`, `app.py`).

The stateful Python code is embedded shallowly: network I/O is modelled by
oracle functions (`attempt : Nat → FetchAttempt` gives the outcome of the
i-th HTTP attempt), module-level mutable state (`latest_polled_data`,
`config.last_auto_command_time`) is passed explicitly, and wall-clock
instants are integers (seconds).
-/

namespace Clothesline

/-- A device reading as produced by `get_nodemcu_data`: the JSON dict from
`GET /api/data` after the `.get(key, default)` accesses the code performs
(`ldr`/`rain`/`rotation` default to 0, `status` to a string, `connected`
to `False`). -/
structure DeviceData where
  ldr : Int
  rain : Int
  status : String
  rotation : Int
  connected : Bool
deriving DecidableEq, Repr

/-- Result dict of `send_command_to_nodemcu` and of the device control
endpoint: `{"success": bool, "message": str}`; `success` models
`result.get('success', False)`. -/
structure Outcome where
  success : Bool
  message : String
deriving DecidableEq, Repr

/-- Python `str.upper()` restricted to the ASCII strings used by the
device protocol (statuses such as "TERBUKA"/"TERTUTUP"). -/
def py_upper (s : String) : String := ⟨s.data.map Char.toUpper⟩

/-! ### Endpoint selection (`get_api_endpoint`, nodemcu_manager.py lines 27-51) -/

/-- Shallow embedding of `get_api_endpoint`: chooses the Render fallback
when `use_render` is set, or when `base_url` is empty (Python falsiness)
or the localhost placeholder; otherwise uses the configured local
`base_url`.  It always returns a URL string: there is no failure path. -/
def get_api_endpoint (use_render : Bool) (base_url render_url : String)
    (path : String) : String :=
  if use_render = true ∨ base_url = "" ∨ base_url = "http://localhost/" then
    if path = "" then render_url ++ "/api/data" else render_url ++ "/api/" ++ path
  else
    if path = "" then base_url ++ "/api/data" else base_url ++ "/api/" ++ path

/-! ### Retry loops (nodemcu_manager.py lines 89-144 and 194-244) -/

/-- Outcome of one `requests.get` attempt inside `get_nodemcu_data`:
HTTP 200 with parsed data, a non-200 status, or a
timeout/connection/DNS error (the caught exception classes). -/
inductive FetchAttempt where
  | ok (d : DeviceData)
  | httpError (code : Nat)
  | connError
deriving DecidableEq, Repr

/-- True exactly on a successful (HTTP 200) attempt. -/
def FetchAttempt.isOk : FetchAttempt → Bool
  | .ok _ => true
  | _ => false

/-- Outcome of one `requests.post` attempt inside `send_command_to_nodemcu`:
an HTTP response with status code and optional JSON body, or a
timeout/connection error. -/
inductive SendAttempt where
  | response (code : Nat) (body : Option Outcome)
  | connError
deriving DecidableEq, Repr

/-- True exactly on an attempt that received an HTTP 200 response; a
non-200 response and a timeout/connection error are both failing
attempts for the retry loop. -/
def SendAttempt.is200 : SendAttempt → Bool
  | .response code _ => decide (code = 200)
  | .connError => false

/-- Observable trace of one `for retry in range(max_retries)` loop:
how many HTTP attempts were issued, how many inter-retry
`time.sleep(retry_delay)` calls ran, how many post-success
`get_nodemcu_data(force_refresh=True)` refreshes ran, and the value the
loop produced (`none` = fell out of the loop with every attempt failed). -/
structure LoopResult (α : Type) where
  attempts : Nat
  sleeps : Nat
  refreshes : Nat
  result : Option α
deriving DecidableEq, Repr

/-- The retry loop of `get_nodemcu_data` (lines 89-139).  `remaining`
counts iterations still to run; the loop index is
`maxRetries - remaining`.  On HTTP error or connection error the code
sleeps only when this is not the last iteration (`retry < max_retries
- 1`, i.e. `remaining > 1`). -/
def fetch_loop (attempt : Nat → FetchAttempt) (maxRetries : Nat) :
    Nat → LoopResult DeviceData
  | 0 => ⟨0, 0, 0, none⟩
  | remaining + 1 =>
    match attempt (maxRetries - (remaining + 1)) with
    | .ok d => ⟨1, 0, 0, some d⟩
    | .httpError _ =>
      match remaining with
      | 0 => ⟨1, 0, 0, none⟩
      | r + 1 =>
        let rest := fetch_loop attempt maxRetries (r + 1)
        ⟨1 + rest.attempts, 1 + rest.sleeps, rest.refreshes, rest.result⟩
    | .connError =>
      match remaining with
      | 0 => ⟨1, 0, 0, none⟩
      | r + 1 =>
        let rest := fetch_loop attempt maxRetries (r + 1)
        ⟨1 + rest.attempts, 1 + rest.sleeps, rest.refreshes, rest.result⟩

/-- The retry loop of `send_command_to_nodemcu` (lines 194-239).  On an
HTTP 200 response the code returns the parsed body (or a failure dict if
the body is not JSON) after a one-second pause and a forced data refresh;
on non-200 it retries; on a connection error at the last iteration it
returns the `"All retries failed"` failure dict directly. -/
def send_loop (attempt : Nat → SendAttempt) (maxRetries : Nat) :
    Nat → LoopResult Outcome
  | 0 => ⟨0, 0, 0, none⟩
  | remaining + 1 =>
    match attempt (maxRetries - (remaining + 1)) with
    | .response code body =>
      let result := match body with
        | some r => r
        | none => ⟨false, "Invalid response"⟩
      if code = 200 then ⟨1, 0, 1, some result⟩
      else
        match remaining with
        | 0 => ⟨1, 0, 0, none⟩
        | r + 1 =>
          let rest := send_loop attempt maxRetries (r + 1)
          ⟨1 + rest.attempts, 1 + rest.sleeps, rest.refreshes, rest.result⟩
    | .connError =>
      match remaining with
      | 0 => ⟨1, 0, 0, some ⟨false, "All retries failed"⟩⟩
      | r + 1 =>
        let rest := send_loop attempt maxRetries (r + 1)
        ⟨1 + rest.attempts, 1 + rest.sleeps, rest.refreshes, rest.result⟩

/-! ### Reading cache (`get_nodemcu_data`, lines 53-151) -/

/-- Shallow embedding of `get_nodemcu_data`.  `cached` is the global
`latest_polled_data`; `cached_age` is the parsed
`(now - data_time).total_seconds()` of the cached reading, `none` when
the cached dict has no `timestamp` key or parsing raised.  The network is
the oracle `attempt url i`.  Returns the value produced and the number of
HTTP attempts issued.  On the fresh-fetch path, exhausting all retries
returns `none` (lines 141-151) — the cached reading is NOT returned
there. -/
def get_nodemcu_data (force_refresh : Bool) (cached : Option DeviceData)
    (cached_age : Option Int) (polling_interval : Int)
    (use_render : Bool) (base_url render_url : String)
    (attempt : String → Nat → FetchAttempt) (max_retries : Nat) :
    Option DeviceData × Nat :=
  let fresh : Option DeviceData × Nat :=
    let endpoint_url := get_api_endpoint use_render base_url render_url ""
    let r := fetch_loop (attempt endpoint_url) max_retries max_retries
    (r.result, r.attempts)
  match force_refresh, cached with
  | false, some d =>
    match cached_age with
    | some a => if a < polling_interval * 2 then (some d, 0) else fresh
    | none => fresh
  | _, _ => fresh

/-! ### Command dispatch (`send_command_to_nodemcu`, lines 153-253) -/

/-- Error message of the action-validation guard (lines 158-161). -/
def invalid_action_message (action : String) : String :=
  "Invalid action parameter: " ++ action ++ ". Must be 'open' or 'close'"

/-- The pre-POST checks of `send_command_to_nodemcu` (lines 169-185),
applied to the freshly fetched device data: the Arduino-connected guard
and the already-open / already-closed no-op success checks.  `some o`
means the function returns `o` without issuing any POST; `none` means it
proceeds to the control POST. -/
def send_command_pre (action : String) (current_data : Option DeviceData)
    (use_render : Bool) : Option Outcome :=
  match current_data with
  | none => none
  | some d =>
    if d.connected = false ∧ use_render = false then
      some ⟨false, "Arduino is not connected to NodeMCU. Cannot send command."⟩
    else if action = "open" ∧ py_upper d.status = "TERBUKA" then
      some ⟨true, "Clothesline is already open"⟩
    else if action = "close" ∧ py_upper d.status = "TERTUTUP" then
      some ⟨true, "Clothesline is already closed"⟩
    else none

/-- Shallow embedding of `send_command_to_nodemcu`.  `fetched` is the
value of the forced-refresh `get_nodemcu_data(force_refresh=True)` at
line 166 — that fetch is only performed after the action-validation
guard passes.  Returns the result dict, the number of data fetches
issued (0 on invalid action; 1 after validation; +1 for the post-success
refresh at line 224), and the number of control POSTs issued. -/
def send_command_to_nodemcu (action : String) (fetched : Option DeviceData)
    (use_render : Bool) (attempt : Nat → SendAttempt) (max_retries : Nat) :
    Outcome × Nat × Nat :=
  if action ≠ "open" ∧ action ≠ "close" then
    (⟨false, invalid_action_message action⟩, 0, 0)
  else
    match send_command_pre action fetched use_render with
    | some o => (o, 1, 0)
    | none =>
      let r := send_loop attempt max_retries max_retries
      match r.result with
      | some o => (o, 1 + r.refreshes, r.attempts)
      | none =>
        (⟨false, "Command failed after " ++ toString max_retries ++ " attempts"⟩,
         1, r.attempts)

/-! ### Auto-control decision (`check_auto_conditions`, lines 313-402) -/

/-- Hysteresis buffer for the light threshold (line 353). -/
def LIGHT_HYSTERESIS : Int := 50

/-- Hysteresis buffer for the rain threshold (line 354). -/
def RAIN_HYSTERESIS : Int := 50

/-- The cooldown guard at line 373: active when the
`last_auto_command_time` attribute exists (modelled by `some`) and less
than `command_cooldown` seconds have passed since it. -/
def cooldown_active (last_auto_command_time : Option Int)
    (current_time command_cooldown : Int) : Bool :=
  match last_auto_command_time with
  | some t => decide (current_time - t < command_cooldown)
  | none => false

/-- The pure decision core of `check_auto_conditions` (lines 317-395),
after the sensor values have been extracted (`status` is the already
uppercased status string).  Returns the action string passed to
`send_command_to_nodemcu`, or `none` when the function returns without
sending. -/
def check_auto_decision (enabled : Bool) (ldr rain : Int) (status : String)
    (light_threshold rain_threshold : Int)
    (last_auto_command_time : Option Int)
    (current_time command_cooldown : Int) : Option String :=
  if enabled = false then none
  else if status ≠ "TERTUTUP" ∧ status ≠ "TERBUKA" then none
  else if cooldown_active last_auto_command_time current_time command_cooldown then none
  else if (rain > rain_threshold ∨ ldr < light_threshold - LIGHT_HYSTERESIS)
          ∧ status = "TERBUKA" then some "close"
  else if (ldr > light_threshold + LIGHT_HYSTERESIS
          ∧ rain < rain_threshold - RAIN_HYSTERESIS)
          ∧ status = "TERTUTUP" then some "open"
  else none

/-- The decision plus the dispatch tail of `check_auto_conditions`
(lines 378-395): on a candidate action the command is sent, and
`config.last_auto_command_time` is set to `current_time` exactly when
the returned dict reports success (`result.get('success', False)`).
Returns the action sent (if any) and the new last-command time. -/
def check_auto_run (enabled : Bool) (ldr rain : Int) (status : String)
    (light_threshold rain_threshold : Int)
    (last_auto_command_time : Option Int)
    (current_time command_cooldown : Int)
    (send : String → Outcome) : Option String × Option Int :=
  match check_auto_decision enabled ldr rain status light_threshold
      rain_threshold last_auto_command_time current_time command_cooldown with
  | none => (none, last_auto_command_time)
  | some a =>
    let result := send a
    if result.success = true then (some a, some current_time)
    else (some a, last_auto_command_time)

/-! ### Retraining gates (`weather_predictor.py` lines 301-320, `app.py` lines 154-169) -/

/-- `WeatherPredictor.window_size` (weather_predictor.py line 25). -/
def window_size : Nat := 3

/-- The gate of `auto_train_model_thread` (lines 308-315): one scheduler
cycle invokes `weather_predictor.train()` exactly when the stored record
count satisfies `count >= window_size + 10`. -/
def auto_train_cycle_trains (count ws : Nat) : Bool :=
  if count ≥ ws + 10 then true else false

/-- The gate of the `/train-model` route `handle_train` (app.py lines
161-169): training runs unless `count < window_size + 10`, in which case
a 400 error is returned instead. -/
def handle_train_runs (count ws : Nat) : Bool :=
  let min_required := ws + 10
  if count < min_required then false else true

end Clothesline

namespace Clothesline

/-! ### Helper lemmas about the retry loops -/

/-- When every attempt fails, the fetch retry loop issues one attempt per
iteration, sleeps between attempts but not after the last, and produces
no data. -/
theorem fetch_loop_all_fail (attempt : Nat → FetchAttempt) (M : Nat)
    (h : ∀ i, (attempt i).isOk = false) :
    ∀ m, fetch_loop attempt M m = ⟨m, m - 1, 0, none⟩ := by
  intro m
  induction m with
  | zero => rfl
  | succ m ih =>
    have hi := h (M - (m + 1))
    cases hm : attempt (M - (m + 1)) with
    | ok d => rw [hm] at hi; simp [FetchAttempt.isOk] at hi
    | httpError c =>
      cases m with
      | zero => simp [fetch_loop, hm]
      | succ r => simp [fetch_loop, hm, ih]; omega
    | connError =>
      cases m with
      | zero => simp [fetch_loop, hm]
      | succ r => simp [fetch_loop, hm, ih]; omega

/-- When no send attempt receives HTTP 200 (every attempt is a non-200
response or a connection error), the send retry loop issues one POST per
iteration, sleeps between attempts but not after the last, never
triggers the post-success refresh, and produces no accepted outcome: the
`"All retries failed"` failure dict when the last attempt is a
connection error, or loop exhaustion (`none`) when the last attempt is a
non-200 response. -/
theorem send_loop_all_fail (attempt : Nat → SendAttempt) (M : Nat)
    (h : ∀ i, (attempt i).is200 = false) :
    ∀ m, 1 ≤ m →
      send_loop attempt M m
        = ⟨m, m - 1, 0,
            match attempt (M - 1) with
            | .connError => some ⟨false, "All retries failed"⟩
            | .response _ _ => none⟩ := by
  intro m
  induction m with
  | zero => intro h0; omega
  | succ m ih =>
    intro _
    cases m with
    | zero =>
      have hi := h (M - 1)
      cases hm : attempt (M - 1) with
      | response code body =>
        rw [hm] at hi
        simp [SendAttempt.is200] at hi
        simp [send_loop, hm, hi]
      | connError => simp [send_loop, hm]
    | succ r =>
      have hi := h (M - (r + 2))
      cases hm : attempt (M - (r + 2)) with
      | response code body =>
        rw [hm] at hi
        simp [SendAttempt.is200] at hi
        simp [send_loop, hm, hi, ih (by omega)]
        omega
      | connError =>
        simp [send_loop, hm, ih (by omega)]
        omega

/-- A fetch retry loop with at least one iteration issues at least one
HTTP attempt, whatever the attempts return. -/
theorem fetch_loop_attempts_one_le (attempt : Nat → FetchAttempt) (M m : Nat)
    (hm : 1 ≤ m) : 1 ≤ (fetch_loop attempt M m).attempts := by
  cases m with
  | zero => omega
  | succ m =>
    cases hm' : attempt (M - (m + 1)) <;> cases m <;>
        simp [fetch_loop, hm']

/-! ### Claim theorems -/

/-- Claim C1: with auto mode enabled and the door status OPEN ("TERBUKA")
or CLOSED ("TERTUTUP"), the auto-control decision computes
`is_raining = rain > rain_threshold`, `is_dark = ldr < light_threshold - 50`,
`is_bright = ldr > light_threshold + 50`, `is_dry = rain < rain_threshold - 50`
and returns CLOSE when `(is_raining ∨ is_dark)` and the door is OPEN,
OPEN when `is_bright ∧ is_dry` and the door is CLOSED, and none
otherwise; whenever the last-command time is set and the cooldown has
not elapsed it returns none.  With thresholds 500/500:
`{light=600, rain=100, CLOSED}` with no prior command yields OPEN,
`{light=300, rain=600, OPEN}` yields CLOSE, and
`{light=300, rain=100, CLOSED}` yields none. -/
theorem auto_decision_spec (ldr rain light_threshold rain_threshold : Int)
    (status : String) (last : Option Int) (now cd : Int)
    (hstatus : status = "TERBUKA" ∨ status = "TERTUTUP") :
    (cooldown_active last now cd = false →
      check_auto_decision true ldr rain status light_threshold rain_threshold last now cd =
        if (rain > rain_threshold ∨ ldr < light_threshold - 50) ∧ status = "TERBUKA" then
          some "close"
        else if (ldr > light_threshold + 50 ∧ rain < rain_threshold - 50)
            ∧ status = "TERTUTUP" then some "open"
        else none)
    ∧ (cooldown_active last now cd = true →
      check_auto_decision true ldr rain status light_threshold rain_threshold last now cd = none)
    ∧ check_auto_decision true 600 100 "TERTUTUP" 500 500 none now cd = some "open"
    ∧ check_auto_decision true 300 600 "TERBUKA" 500 500 none now cd = some "close"
    ∧ check_auto_decision true 300 100 "TERTUTUP" 500 500 last now cd = none := by
  refine ⟨?_, ?_, ?_, ?_, ?_⟩
  · intro hcd
    rcases hstatus with h | h <;> subst h <;>
      simp [check_auto_decision, hcd, LIGHT_HYSTERESIS, RAIN_HYSTERESIS]
  · intro hcd
    simp [check_auto_decision, hcd]
  · rfl
  · rfl
  · cases hcd : cooldown_active last now cd <;>
      simp [check_auto_decision, hcd, LIGHT_HYSTERESIS, RAIN_HYSTERESIS]

/-- Witness for C1: the concrete OPEN case, derived from the main theorem. -/
theorem auto_decision_spec_witness :
    check_auto_decision true 600 100 "TERTUTUP" 500 500 none 0 300 = some "open" :=
  (auto_decision_spec 600 100 500 500 "TERTUTUP" none 0 300 (Or.inr rfl)).2.2.1

/-- Claim C2: for every reading whose door status is not OPEN/CLOSED (a
move in progress or an unknown status) the decision is none for any
sensor values, thresholds, last-command time and cooldown; and with auto
mode disabled the decision is none for every reading. -/
theorem auto_decision_guards (enabled : Bool) (ldr rain lt rt : Int)
    (status status2 : String) (last : Option Int) (now cd : Int)
    (hstatus : ¬ (status = "TERTUTUP" ∨ status = "TERBUKA")) :
    check_auto_decision enabled ldr rain status lt rt last now cd = none
    ∧ check_auto_decision false ldr rain status2 lt rt last now cd = none := by
  constructor
  · obtain ⟨h1, h2⟩ := not_or.mp hstatus
    cases enabled <;> simp [check_auto_decision, h1, h2]
  · simp [check_auto_decision]

/-- Witness for C2: a moving status and a disabled auto mode both yield
no action. -/
theorem auto_decision_guards_witness :
    check_auto_decision true 0 0 "MOVING" 500 500 none 0 300 = none
    ∧ check_auto_decision false 0 0 "TERBUKA" 500 500 none 0 300 = none :=
  auto_decision_guards true 0 0 500 500 "MOVING" "TERBUKA" none 0 300 (by decide)

/-- Claim C3: in the auto-control dispatch, the last-command time is set
to the current time exactly when the dispatch outcome reports success;
on a failed send (or when no command is sent) it is left unchanged, so
the cooldown is keyed to successful commands. -/
theorem auto_command_time_update (enabled : Bool) (ldr rain lt rt : Int)
    (status : String) (last : Option Int) (now cd : Int) (send : String → Outcome) :
    (∀ a, (check_auto_run enabled ldr rain status lt rt last now cd send).1 = some a →
      (send a).success = true →
      (check_auto_run enabled ldr rain status lt rt last now cd send).2 = some now)
    ∧ (∀ a, (check_auto_run enabled ldr rain status lt rt last now cd send).1 = some a →
      (send a).success = false →
      (check_auto_run enabled ldr rain status lt rt last now cd send).2 = last)
    ∧ ((check_auto_run enabled ldr rain status lt rt last now cd send).1 = none →
      (check_auto_run enabled ldr rain status lt rt last now cd send).2 = last) := by
  cases hd : check_auto_decision enabled ldr rain status lt rt last now cd with
  | none => simp [check_auto_run, hd]
  | some a =>
    cases hs : (send a).success <;>
      simp_all [check_auto_run, hd, hs]

/-- Witness for C3: a successful auto CLOSE updates the last-command
time to the current time. -/
theorem auto_command_time_update_witness :
    (check_auto_run true 300 600 "TERBUKA" 500 500 none 100 60
      (fun _ => ⟨true, "ok"⟩)).2 = some 100 :=
  (auto_command_time_update true 300 600 500 500 "TERBUKA" none 100 60
    (fun _ => ⟨true, "ok"⟩)).1 "close" (by decide) rfl

/-- Counterexample to claim C4 as stated: with action "open" and a fresh
reading whose status is already OPEN ("TERBUKA") but which reports the
Arduino not connected (and render mode off), `send_command_to_nodemcu`
returns a FAILURE outcome — not the claimed success — because the
connected guard at line 173 fires before the idempotence check. -/
theorem dispatch_idempotence_counterexample :
    (send_command_to_nodemcu "open" (some ⟨0, 0, "TERBUKA", 0, false⟩) false
      (fun _ => .connError) 3).1
      = ⟨false, "Arduino is not connected to NodeMCU. Cannot send command."⟩
    ∧ (send_command_to_nodemcu "open" (some ⟨0, 0, "TERBUKA", 0, false⟩) false
      (fun _ => .connError) 3).1.success = false := by decide

/-- Claim C4 (amended): when the freshly fetched reading reports the
device connected (or render mode is enabled) and its status already
matches the requested end-state, the dispatcher returns a no-op success
after the single status fetch, issuing no control POST. -/
theorem dispatch_idempotence_amended (d : DeviceData) (use_render : Bool)
    (attempt : Nat → SendAttempt) (m : Nat)
    (hconn : d.connected = true ∨ use_render = true) :
    (py_upper d.status = "TERBUKA" →
      send_command_to_nodemcu "open" (some d) use_render attempt m
        = (⟨true, "Clothesline is already open"⟩, 1, 0))
    ∧ (py_upper d.status = "TERTUTUP" →
      send_command_to_nodemcu "close" (some d) use_render attempt m
        = (⟨true, "Clothesline is already closed"⟩, 1, 0)) := by
  constructor <;> intro hst <;>
    rcases hconn with h | h <;>
    simp [send_command_to_nodemcu, send_command_pre, h, hst]

/-- Witness for the amended C4: an already-open connected device yields a
no-op success with zero POSTs. -/
theorem dispatch_idempotence_amended_witness :
    send_command_to_nodemcu "open" (some ⟨0, 0, "TERBUKA", 0, true⟩) false
      (fun _ => .connError) 3 = (⟨true, "Clothesline is already open"⟩, 1, 0) :=
  (dispatch_idempotence_amended ⟨0, 0, "TERBUKA", 0, true⟩ false (fun _ => .connError) 3
    (Or.inl rfl)).1 (by decide)

/-- Claim C5: with `force_refresh=false` and a cached reading younger
than `2 × polling_interval`, the cache returns the cached reading with
zero network attempts; a cached reading at or beyond that bound triggers
a fresh fetch (at least one network attempt). -/
theorem reading_cache_freshness (d : DeviceData) (a polling_interval : Int)
    (use_render : Bool) (base_url render_url : String)
    (attempt : String → Nat → FetchAttempt) (m : Nat) (hm : 1 ≤ m) :
    (a < polling_interval * 2 →
      get_nodemcu_data false (some d) (some a) polling_interval use_render
        base_url render_url attempt m = (some d, 0))
    ∧ (¬ a < polling_interval * 2 →
      1 ≤ (get_nodemcu_data false (some d) (some a) polling_interval use_render
        base_url render_url attempt m).2) := by
  constructor
  · intro h; simp [get_nodemcu_data, h]
  · intro h
    simp only [get_nodemcu_data, if_neg h]
    exact fetch_loop_attempts_one_le _ _ _ hm

/-- Witness for C5: a 5-second-old cached reading is served with no
network attempt when the polling interval is 10 seconds. -/
theorem reading_cache_freshness_witness :
    get_nodemcu_data false (some ⟨500, 100, "TERBUKA", 0, true⟩) (some 5) 10 false
      "http://192.168.8.137/" "https://iot-clothesline-system.onrender.com"
      (fun _ _ => .connError) 3 = (some ⟨500, 100, "TERBUKA", 0, true⟩, 0) :=
  (reading_cache_freshness ⟨500, 100, "TERBUKA", 0, true⟩ 5 10 false
    "http://192.168.8.137/" "https://iot-clothesline-system.onrender.com"
    (fun _ _ => .connError) 3 (by decide)).1 (by decide)

/-- Counterexample to claim C6 as stated: with a cached reading present
but stale (age 100s, polling interval 10s) and every fetch attempt
failing, `get_nodemcu_data` returns `none` after its 3 attempts — it
does NOT return the previous cached reading (lines 141-151 return None
unconditionally on the failure path). -/
theorem stale_fallback_counterexample :
    get_nodemcu_data false (some ⟨450, 120, "TERBUKA", 0, true⟩) (some 100) 10 false
      "http://192.168.8.137/" "https://iot-clothesline-system.onrender.com"
      (fun _ _ => .connError) 3
      = (none, 3)
    ∧ (none : Option DeviceData) ≠ some ⟨450, 120, "TERBUKA", 0, true⟩ := by decide

/-- Claim C6 (amended): when the fetch path is taken (forced refresh, or
a stale cached reading) and every attempt fails, `get_nodemcu_data`
returns `none` regardless of any previously cached reading; stale data
is never served from the failure path. -/
theorem stale_fallback_amended (cached : Option DeviceData) (d : DeviceData)
    (cached_age : Option Int) (a pi : Int) (ur : Bool) (bu ru : String)
    (attempt : String → Nat → FetchAttempt) (m : Nat)
    (h : ∀ url i, (attempt url i).isOk = false) :
    (get_nodemcu_data true cached cached_age pi ur bu ru attempt m).1 = none
    ∧ (¬ a < pi * 2 →
      (get_nodemcu_data false (some d) (some a) pi ur bu ru attempt m).1 = none) := by
  constructor
  · simp [get_nodemcu_data, fetch_loop_all_fail _ _ (h _) m]
  · intro hage
    simp only [get_nodemcu_data, if_neg hage]
    simp [fetch_loop_all_fail _ _ (h _) m]

/-- Witness for the amended C6: a forced refresh whose every attempt
fails yields `none`. -/
theorem stale_fallback_amended_witness :
    (get_nodemcu_data true none none 10 false "http://192.168.8.137/"
      "https://iot-clothesline-system.onrender.com" (fun _ _ => .connError) 3).1 = none :=
  (stale_fallback_amended none ⟨0, 0, "", 0, false⟩ none 0 10 false "http://192.168.8.137/"
    "https://iot-clothesline-system.onrender.com" (fun _ _ => .connError) 3
    (fun _ _ => rfl)).1

/-- Claim C7: with `max_retries = 3` and every attempt timing out or
failing (a connection error or a non-200 HTTP response, in any mix),
both the fetch loop and the command-send loop issue exactly 3 attempts
with the inter-retry delay applied twice (between attempts, not after
the last), and the enclosing functions return a failure value rather
than raising — `None` with 3 attempts for the fetch, and for the send a
non-accepted outcome after 1 status fetch and exactly 3 POSTs. -/
theorem retry_bound (fattempt : Nat → FetchAttempt) (sattempt : Nat → SendAttempt)
    (cached : Option DeviceData) (cached_age : Option Int) (pi : Int)
    (ur ur2 : Bool) (bu ru : String)
    (hf : ∀ i, (fattempt i).isOk = false) (hs : ∀ i, (sattempt i).is200 = false) :
    fetch_loop fattempt 3 3 = ⟨3, 2, 0, none⟩
    ∧ (send_loop sattempt 3 3).attempts = 3
    ∧ (send_loop sattempt 3 3).sleeps = 2
    ∧ (send_loop sattempt 3 3).refreshes = 0
    ∧ get_nodemcu_data true cached cached_age pi ur bu ru (fun _ => fattempt) 3 = (none, 3)
    ∧ (send_command_to_nodemcu "open" none ur2 sattempt 3).1.success = false
    ∧ (send_command_to_nodemcu "open" none ur2 sattempt 3).2 = (1, 3) := by
  have hsl := send_loop_all_fail sattempt 3 hs 3 (by omega)
  refine ⟨fetch_loop_all_fail _ _ hf 3, ?_, ?_, ?_, ?_, ?_, ?_⟩
  · rw [hsl]
  · rw [hsl]
  · rw [hsl]
  · simp [get_nodemcu_data, fetch_loop_all_fail _ _ hf 3]
  · cases h2 : sattempt 2 <;>
      simp [send_command_to_nodemcu, send_command_pre, hsl, h2]
  · cases h2 : sattempt 2 <;>
      simp [send_command_to_nodemcu, send_command_pre, hsl, h2]

/-- Witness for C7: the oracle whose every POST attempt gets an HTTP 500
response realises the 3-attempts-2-sleeps non-accepted trace (fetch side
witnessed by the always-connection-error oracle). -/
theorem retry_bound_witness :
    fetch_loop (fun _ => FetchAttempt.connError) 3 3 = ⟨3, 2, 0, none⟩
    ∧ (send_loop (fun _ => SendAttempt.response 500 none) 3 3).attempts = 3
    ∧ (send_loop (fun _ => SendAttempt.response 500 none) 3 3).sleeps = 2
    ∧ (send_loop (fun _ => SendAttempt.response 500 none) 3 3).refreshes = 0
    ∧ get_nodemcu_data true none none 10 false "http://192.168.8.137/"
        "https://iot-clothesline-system.onrender.com"
        (fun _ _ => FetchAttempt.connError) 3 = (none, 3)
    ∧ (send_command_to_nodemcu "open" none false
        (fun _ => SendAttempt.response 500 none) 3).1.success = false
    ∧ (send_command_to_nodemcu "open" none false
        (fun _ => SendAttempt.response 500 none) 3).2 = (1, 3) :=
  retry_bound (fun _ => .connError) (fun _ => .response 500 none) none none 10 false false
    "http://192.168.8.137/" "https://iot-clothesline-system.onrender.com"
    (fun _ => rfl) (fun _ => rfl)

/-- Counterexample to claim C8 as stated: with an empty `base_url` (no
usable device address) `get_api_endpoint` does not fail — it silently
falls back to the Render cloud URL — and the fetch proceeds to issue its
3 network attempts; there is no EndpointUnavailable/ConfigurationError
path. -/
theorem endpoint_fallback_counterexample :
    get_api_endpoint false "" "https://iot-clothesline-system.onrender.com" ""
      = "https://iot-clothesline-system.onrender.com/api/data"
    ∧ (get_nodemcu_data true none none 10 false ""
        "https://iot-clothesline-system.onrender.com" (fun _ _ => .connError) 3).2 = 3 := by
  decide

/-- Claim C8 (amended): when no usable local address is configured
(empty or localhost `base_url`, or render mode on), endpoint selection
falls back to the configured Render URL and the fetch attempts network
requests there; it never fails with a configuration error before
requesting. -/
theorem endpoint_fallback_amended (use_render : Bool) (base_url render_url : String)
    (attempt : String → Nat → FetchAttempt) (m : Nat) (pi : Int)
    (hbad : use_render = true ∨ base_url = "" ∨ base_url = "http://localhost/")
    (hm : 1 ≤ m) :
    get_api_endpoint use_render base_url render_url "" = render_url ++ "/api/data"
    ∧ 1 ≤ (get_nodemcu_data true none none pi use_render base_url render_url attempt m).2 := by
  constructor
  · simp [get_api_endpoint, hbad]
  · simp only [get_nodemcu_data]
    exact fetch_loop_attempts_one_le _ _ _ hm

/-- Witness for the amended C8: with an empty `base_url` the render
fallback endpoint is selected and at least one request is attempted. -/
theorem endpoint_fallback_amended_witness :
    get_api_endpoint false "" "https://iot-clothesline-system.onrender.com" ""
      = "https://iot-clothesline-system.onrender.com" ++ "/api/data"
    ∧ 1 ≤ (get_nodemcu_data true none none 10 false ""
        "https://iot-clothesline-system.onrender.com" (fun _ _ => .connError) 3).2 :=
  endpoint_fallback_amended false "" "https://iot-clothesline-system.onrender.com"
    (fun _ _ => .connError) 3 10 (Or.inr (Or.inl rfl)) (by decide)

/-- Claim C9: the retraining scheduler invokes training on a cycle iff
the stored record count is at least `window_size + 10`; a count of
`window_size + 9` never triggers training while `window_size + 10` does,
and the manual `/train-model` entry point applies the same gate. -/
theorem retrain_gate (count ws : Nat) :
    (auto_train_cycle_trains count ws = true ↔ ws + 10 ≤ count)
    ∧ (handle_train_runs count ws = true ↔ ws + 10 ≤ count)
    ∧ auto_train_cycle_trains (ws + 9) ws = false
    ∧ auto_train_cycle_trains (ws + 10) ws = true
    ∧ handle_train_runs (window_size + 9) window_size = false
    ∧ handle_train_runs (window_size + 10) window_size = true := by
  refine ⟨?_, ?_, ?_, ?_, by decide, by decide⟩
  · simp [auto_train_cycle_trains, ge_iff_le]
  · simp [handle_train_runs]
  · simp [auto_train_cycle_trains]
  · simp [auto_train_cycle_trains]

/-- Witness for C9: with `window_size = 3`, 13 records trigger training
and 12 do not. -/
theorem retrain_gate_witness :
    auto_train_cycle_trains 13 3 = true ∧ auto_train_cycle_trains 12 3 = false :=
  ⟨(retrain_gate 13 3).1.mpr (by decide), (retrain_gate 12 3).2.2.1⟩

/-- Claim C10: every action string outside {"open", "close"} — including
"stop", which the /send_command route accepts — is rejected by
`send_command_to_nodemcu` with a `success=false` outcome and an error
message, with zero status fetches and zero control POSTs, so a manual
STOP can never reach the device through this path. -/
theorem invalid_action_guard (action : String) (fetched : Option DeviceData)
    (use_render : Bool) (attempt : Nat → SendAttempt) (m : Nat)
    (h1 : action ≠ "open") (h2 : action ≠ "close") :
    send_command_to_nodemcu action fetched use_render attempt m
      = (⟨false, invalid_action_message action⟩, 0, 0)
    ∧ send_command_to_nodemcu "stop" fetched use_render attempt m
      = (⟨false, invalid_action_message "stop"⟩, 0, 0) := by
  constructor
  · simp [send_command_to_nodemcu, h1, h2]
  · simp [send_command_to_nodemcu]

/-- Witness for C10: the "stop" action is rejected without any network
activity. -/
theorem invalid_action_guard_witness :
    send_command_to_nodemcu "stop" none false (fun _ => .connError) 3
      = (⟨false, invalid_action_message "stop"⟩, 0, 0) :=
  (invalid_action_guard "stop" none false (fun _ => .connError) 3
    (by decide) (by decide)).1

end Clothesline
